import Mathlib

/-!
Shallow embedding of the two scripts of the `drivetime` repository:
`review_streamlit_app.py` (place search, catalog of places, review table)
and `app.py` (address validation and drive-time calculation).

HTTP transport is modelled as a function `Nat → ReqResult α` giving the
parsed outcome of the n-th request attempt a caller would make; every
embedded function consults attempt 0 only, mirroring the single
`requests.get`/`gmaps.*` call in the source. The `Bool` paired with each
result records whether a user-visible `st.error` notice was emitted on
that call path.
-/

set_option autoImplicit false

namespace DriveTime

/-- Outcome of one HTTP request: either the Python `requests.RequestException`
(or `googlemaps` exception) with its message, or a successfully parsed payload. -/
inductive ReqResult (α : Type) where
  | exn (msg : String)
  | ok (payload : α)
deriving Repr

/-- One item of the text-search response `result["results"]` in
`review_streamlit_app.py`: the fields the script reads. -/
structure Place where
  name : String
  formatted_address : String
  place_id : String
deriving Repr, DecidableEq

/-- The parsed JSON body of a text-search response; `results = none` models a
payload in which the `"results"` key is absent (the script's
`"results" in result` check). -/
structure SearchPayload where
  results : Option (List Place)
deriving Repr

/-- Embedding of `perform_request` (review_streamlit_app.py lines 11-26): one
request is issued; on `RequestException` an `st.error` notice is shown and
`None` is returned, otherwise the parsed JSON is returned. The function reads
`transport 0` only: no retry is ever attempted. -/
def perform_request {α : Type} (transport : Nat → ReqResult α) : Option α × Bool :=
  match transport 0 with
  | .exn _ => (none, true)
  | .ok p => (some p, false)

/-- A suggestion dict built by `get_place_suggestions`: `display` and `place_id`. -/
structure Suggestion where
  display : String
  place_id : String
deriving Repr, DecidableEq

/-- The dict comprehension body of `get_place_suggestions`:
`display = name ++ " :: " ++ formatted_address`, `place_id` passed through. -/
def mkSuggestion (p : Place) : Suggestion :=
  { display := p.name ++ " :: " ++ p.formatted_address, place_id := p.place_id }

/-- The value-level part of `get_place_suggestions` (lines 28-49): if the
request produced a payload containing a `"results"` key, map every result to
a suggestion; in every other case (request failure, malformed payload) return
the empty list. -/
def suggestionsOfResult (result : Option SearchPayload) : List Suggestion :=
  match result with
  | some payload =>
    match payload.results with
    | some results => results.map mkSuggestion
    | none => []
  | none => []

/-- Embedding of `get_place_suggestions` (lines 28-49), paired with the
error-notice flag of the underlying `perform_request`. -/
def get_place_suggestions (transport : Nat → ReqResult SearchPayload) :
    List Suggestion × Bool :=
  let r := perform_request transport
  (suggestionsOfResult r.1, r.2)

/-- Embedding of `find_place` (lines 74-79):
`alternatives[:5] if alternatives else []`. -/
def find_place (transport : Nat → ReqResult SearchPayload) : List Suggestion × Bool :=
  let r := get_place_suggestions transport
  (if r.1.isEmpty then [] else r.1.take 5, r.2)

/-- A field of the details result: either a value passed through from the
provider or the `"N/A"` sentinel produced by `dict.get(key, "N/A")`. -/
inductive FieldV (α : Type) where
  | val (v : α)
  | na
deriving Repr, DecidableEq

/-- The `result["result"]` object of a details response: each field is `none`
when the key is absent from the provider payload. Ratings are modelled as
exact rationals. -/
structure PlaceData where
  name : Option String
  formatted_address : Option String
  rating : Option ℚ
  user_ratings_total : Option Nat
deriving Repr, DecidableEq

/-- The parsed JSON body of a details response; `result = none` models a
payload without a `"result"` key (the script's `"result" in result` check). -/
structure DetailsPayload where
  result : Option PlaceData
deriving Repr

/-- `place.get(key, "N/A")`: a present field is passed through verbatim, an
absent field becomes the sentinel. -/
def sentinel {α : Type} (o : Option α) : FieldV α :=
  match o with
  | some v => .val v
  | none => .na

/-- The details dict built by `get_place_details` (lines 66-71). -/
structure Details where
  name : FieldV String
  address : FieldV String
  rating : FieldV ℚ
  total_ratings : FieldV Nat
deriving Repr, DecidableEq

/-- The value-level part of `get_place_details` (lines 51-72): if the request
produced a payload containing a `"result"` key, build the details dict with
`dict.get(_, "N/A")` defaults; otherwise return `None`. -/
def detailsOfResult (result : Option DetailsPayload) : Option Details :=
  match result with
  | some payload =>
    match payload.result with
    | some place =>
      some { name := sentinel place.name
             address := sentinel place.formatted_address
             rating := sentinel place.rating
             total_ratings := sentinel place.user_ratings_total }
    | none => none
  | none => none

/-- Embedding of `get_place_details` (lines 51-72), paired with the
error-notice flag of the underlying `perform_request`. -/
def get_place_details (transport : Nat → ReqResult DetailsPayload) :
    Option Details × Bool :=
  let r := perform_request transport
  (detailsOfResult r.1, r.2)

/-- One element of `st.session_state.places`: the dict appended in `main`
(lines 170-175). -/
structure Entry where
  original_input : String
  alternatives : List Suggestion
  selected : String
  details : Details
deriving Repr, DecidableEq

/-- The duplicate check of `main` (lines 165-169): some existing place has the
same details name and details address. -/
def isDuplicate (places : List Entry) (d : Details) : Bool :=
  places.any (fun e => e.details.name == d.name && e.details.address == d.address)

/-- The append step of `main` (lines 163-176): when the details are not a
duplicate, the new place dict is appended and an `st.success` notice is shown
(`Bool = true`); a duplicate falls through with no append and no notice. -/
def addPlace (places : List Entry) (place_name : String) (alternatives : List Suggestion)
    (selected : String) (d : Details) : List Entry × Bool :=
  if isDuplicate places d then (places, false)
  else (places ++ [{ original_input := place_name, alternatives := alternatives,
                     selected := selected, details := d }], true)

/-- The user-visible outcome of processing one submitted place name in `main`:
`added` = `st.success`, `noMatches` = the `st.error` of line 178, `silent` =
no message from this block (duplicate details, or a details fetch that
returned `None`). -/
inductive SubmitMsg where
  | added
  | noMatches
  | silent
deriving Repr, DecidableEq

/-- The per-name body of the Submit Places loop in `main` (lines 156-178):
`find_place`, auto-selection of `alternatives[0]` as best match,
`get_place_details` on its `place_id`, then the duplicate-checked append.
`detailsT` gives the transport used for the details request of each place id. -/
def submitPlace (searchT : Nat → ReqResult SearchPayload)
    (detailsT : String → Nat → ReqResult DetailsPayload)
    (places : List Entry) (place_name : String) : List Entry × SubmitMsg :=
  match (find_place searchT).1 with
  | [] => (places, .noMatches)
  | best :: rest =>
    match (get_place_details (detailsT best.place_id)).1 with
    | none => (places, .silent)
    | some d =>
      let r := addPlace places place_name (best :: rest) best.place_id d
      if r.2 then (r.1, .added) else (r.1, .silent)

/-- The disambiguation update of `main` (lines 219-228): the entry at index
`i` gets the newly selected place id and its freshly fetched details, keeping
`original_input` and `alternatives`; all other entries are untouched. Indices
come from `enumerate`, so only in-bounds indices occur in the source. -/
def replaceSelection : List Entry → Nat → String → Details → List Entry
  | [], _, _, _ => []
  | e :: es, 0, pid, d => { e with selected := pid, details := d } :: es
  | e :: es, Nat.succ i, pid, d => e :: replaceSelection es i pid d

/-- Error kind raised by Python list indexing out of range. -/
inductive CatalogErr where
  | indexOut
deriving Repr, DecidableEq

/-- The Remove button of `main` (lines 213-217): `del st.session_state.places[i]`,
which removes the element at `i` when in bounds and raises `IndexError`
otherwise. -/
def removeAt (places : List Entry) (i : Nat) : Except CatalogErr (List Entry) :=
  if i < places.length then .ok (places.eraseIdx i) else .error .indexOut

/-- One cell of the Score column (line 91): a numeric rating is formatted with
one decimal, a non-numeric rating (the sentinel) is shown raw. -/
inductive ScoreCell where
  | formatted (q : ℚ)
  | raw
deriving Repr, DecidableEq

/-- The `isinstance(rating, (int, float))` branch of line 91. -/
def scoreCell (r : FieldV ℚ) : ScoreCell :=
  match r with
  | .val q => .formatted q
  | .na => .raw

/-- The `table_data` dict of `generate_table` (lines 86-94). -/
structure TableData where
  placeNames : List (FieldV String)
  addresses : List (FieldV String)
  reviewCounts : List (FieldV Nat)
  scores : List ScoreCell
deriving Repr, DecidableEq

/-- Output of `generate_table`: either a rendered `st.table` or the
`st.warning` shown for an empty list. -/
inductive TableOut where
  | table (t : TableData)
  | warnNoPlaces
deriving Repr, DecidableEq

/-- Embedding of `generate_table` (lines 81-97). -/
def generate_table (places : List Entry) : TableOut :=
  match places with
  | [] => .warnNoPlaces
  | _ :: _ =>
    .table { placeNames := places.map (fun p => p.details.name)
             addresses := places.map (fun p => p.details.address)
             reviewCounts := places.map (fun p => p.details.total_ratings)
             scores := places.map (fun p => scoreCell p.details.rating) }

/-- The results-table gate of `main` (lines 233-234):
`if len(st.session_state.places) > 1: generate_table(...)`. -/
def renderResults (places : List Entry) : Option TableOut :=
  if places.length > 1 then some (generate_table places) else none

/-- One geocode result of `app.py`: the one field the script reads. -/
structure GeoResult where
  formatted_address : String
deriving Repr, DecidableEq

/-- One autocomplete result of `app.py`: the one field the script reads. -/
structure AutoResult where
  description : String
deriving Repr, DecidableEq

/-- Embedding of `validate_address` (app.py lines 12-23): a non-empty geocode
response yields its first formatted address with no suggestions; an empty one
triggers the autocomplete fallback, whose first three descriptions become the
suggestion list; any exception yields `(None, None)` after an `st.error`
notice (the `Bool`). -/
def validate_address (geocode : ReqResult (List GeoResult))
    (autocomplete : ReqResult (List AutoResult)) :
    (Option String × Option (List String)) × Bool :=
  match geocode with
  | .exn _ => ((none, none), true)
  | .ok [] =>
    match autocomplete with
    | .exn _ => ((none, none), true)
    | .ok results => ((none, some ((results.take 3).map (fun r => r.description))), false)
  | .ok (g :: _) => ((some g.formatted_address, none), false)

/-- How `main` of `app.py` (lines 52-65) reports a `validate_address` result:
a validated address, a selectbox of suggestions when the list is non-empty
(Python truthiness), or the `st.error` invalid-address notice. -/
inductive ValidationReport where
  | validated (addr : String)
  | suggest (options : List String)
  | invalid
deriving Repr, DecidableEq

/-- The `if valid_address / elif suggestions / else` dispatch of `main`
(app.py lines 54-65). -/
def handleValidation (res : Option String × Option (List String)) : ValidationReport :=
  match res.1 with
  | some addr => .validated addr
  | none =>
    match res.2 with
    | some (s :: ss) => .suggest (s :: ss)
    | _ => .invalid

/-- The `duration_in_traffic.value` (integer seconds) of a directions leg. -/
structure Leg where
  duration_in_traffic : Nat
deriving Repr, DecidableEq

/-- One route of a directions response. -/
structure Route where
  legs : List Leg
deriving Repr, DecidableEq

/-- Python `round(s / 60)` for an integer number of seconds `s`: round half to
even on the exact quotient (the tie at remainder 30 is exactly representable,
so CPython rounds it to the even minute). -/
def roundDiv60 (s : Nat) : Nat :=
  if s % 60 < 30 then s / 60
  else if 30 < s % 60 then s / 60 + 1
  else if s / 60 % 2 = 0 then s / 60 else s / 60 + 1

/-- Embedding of `get_driving_time` (app.py lines 25-39): an empty directions
list yields `None` silently; a route whose `legs` list is empty raises
`IndexError`, caught by the `except` which shows `st.error` and yields `None`;
otherwise the first leg's duration is converted to rounded minutes. Any
transport exception likewise yields `None` with an `st.error` notice. -/
def get_driving_time (resp : ReqResult (List Route)) : Option Nat × Bool :=
  match resp with
  | .exn _ => (none, true)
  | .ok [] => (none, false)
  | .ok (route :: _) =>
    match route.legs with
    | [] => (none, true)
    | leg :: _ => (some (roundDiv60 leg.duration_in_traffic), false)

/-- What `main` of `app.py` prints for one leg result. -/
inductive LegReport where
  | time (mins : Nat)
  | couldNotCalculate
deriving Repr, DecidableEq

/-- The `if outbound_duration:` dispatch of `main` (app.py lines 100-111):
Python truthiness makes both `None` and `0` take the warning branch. -/
def reportOutbound (d : Option Nat) : LegReport :=
  match d with
  | none => .couldNotCalculate
  | some n => if n = 0 then .couldNotCalculate else .time n

/-! Helper lemmas about `List.eraseIdx`, used for the removal claim. -/

theorem eraseIdx_getElem_of_lt {α : Type} (l : List α) (i j : Nat) (hj : j < i) :
    (l.eraseIdx i)[j]? = l[j]? := by
  induction l generalizing i j with
  | nil => simp [List.eraseIdx]
  | cons a as ih =>
    cases i with
    | zero => omega
    | succ i =>
      cases j with
      | zero => simp [List.eraseIdx]
      | succ j => simpa [List.eraseIdx] using ih i j (by omega)

theorem eraseIdx_getElem_of_ge {α : Type} (l : List α) (i j : Nat) (hij : i ≤ j) :
    (l.eraseIdx i)[j]? = l[j + 1]? := by
  induction l generalizing i j with
  | nil => simp [List.eraseIdx]
  | cons a as ih =>
    cases i with
    | zero => simp [List.eraseIdx]
    | succ i =>
      cases j with
      | zero => omega
      | succ j => simpa [List.eraseIdx] using ih i j (by omega)

/-! Concrete sample data used by witnesses and counterexamples. -/

/-- A sample search result whose three fields all carry the given label. -/
def pl (k : String) : Place :=
  { name := k, formatted_address := k, place_id := k }

/-- Six sample search results, to exercise truncation to the top five. -/
def sixPlaces : List Place :=
  [pl "a", pl "b", pl "c", pl "d", pl "e", pl "f"]

/-- A sample details dict with every field present. -/
def sampleDetails : Details :=
  { name := .val "Tower Cafe", address := .val "1 Main Street",
    rating := .val (9 / 2 : ℚ), total_ratings := .val 120 }

/-- C1. The claim says that whenever the provider search returns N >= 2
results, resolve returns an Ambiguous outcome with min(N, 5) candidates. In
`app.py`, `validate_address` on a geocode response with two results returns
the first formatted address as confirmed and no candidate list at all, so no
two-candidate Ambiguous outcome is produced. -/
theorem c1_counterexample :
    (validate_address
        (.ok [{ formatted_address := "10 Main Street" }, { formatted_address := "12 Main Street" }])
        (.ok [])).1.2 = none ∧
    (validate_address
        (.ok [{ formatted_address := "10 Main Street" }, { formatted_address := "12 Main Street" }])
        (.ok [])).1.1 = some "10 Main Street" :=
  ⟨rfl, rfl⟩

/-- C1 (amended). In the review app, when the provider search returns N >= 2
results, the candidate list produced by `find_place` (the alternatives kept
for disambiguation) holds exactly min(N, 5) candidates, and position j of the
list is exactly the suggestion built from the provider result at position j:
provider order is preserved verbatim, with no re-sorting. -/
theorem c1_candidates_top5 (results : List Place) (h : 2 ≤ results.length) :
    ((find_place (fun _ => .ok { results := some results })).1).length = min results.length 5 ∧
    ∀ j, j < ((find_place (fun _ => .ok { results := some results })).1).length →
      ((find_place (fun _ => .ok { results := some results })).1)[j]? =
        (results[j]?).map mkSuggestion := by
  obtain ⟨r0, rest, rfl⟩ : ∃ r0 rest, results = r0 :: rest := by
    cases results with
    | nil => simp at h
    | cons a l => exact ⟨a, l, rfl⟩
  constructor
  · simp [find_place, get_place_suggestions, perform_request, suggestionsOfResult,
      List.length_take]
    omega
  · intro j hj
    have hj5 : j < 5 := by
      simp [find_place, get_place_suggestions, perform_request, suggestionsOfResult,
        List.length_take] at hj
      omega
    cases j with
    | zero =>
      simp [find_place, get_place_suggestions, perform_request, suggestionsOfResult]
    | succ j =>
      have hj4 : j < 4 := by omega
      simp [find_place, get_place_suggestions, perform_request, suggestionsOfResult,
        List.getElem?_take, hj4]

/-- C1 (amended) witness: six provider results give exactly five candidates,
and the candidate at position 2 is built from the provider result at
position 2. -/
theorem c1_candidates_top5_witness :
    ((find_place (fun _ => .ok { results := some sixPlaces })).1).length = min sixPlaces.length 5 ∧
    ((find_place (fun _ => .ok { results := some sixPlaces })).1)[2]? =
      (sixPlaces[2]?).map mkSuggestion :=
  ⟨(c1_candidates_top5 sixPlaces (by decide)).1,
   (c1_candidates_top5 sixPlaces (by decide)).2 2 (by decide)⟩

/-- C2. The claim says an HTTP failure produces a ServiceError outcome for
the caller, distinct from NotFound, and is never silently swallowed. In the
code, a transport failure makes `get_place_suggestions` return the very same
empty list that a zero-result response produces, so the caller cannot tell
ServiceError from NotFound; and a malformed details payload (no `result` key)
makes `get_place_details` return `None` with no notice at all. -/
theorem c2_counterexample :
    (get_place_suggestions (fun _ => .exn "connection refused")).1 =
      (get_place_suggestions (fun _ => .ok { results := some [] })).1 ∧
    get_place_details (fun _ => .ok { result := none }) = (none, false) :=
  ⟨rfl, rfl⟩

/-- C2 (amended). A transport or HTTP-status failure is reported as a
user-visible error notice at the point of occurrence and the value handed to
the caller is the empty suggestion list (the same value as for zero results);
the call is never retried: `perform_request` depends only on the outcome of
the first request attempt. -/
theorem c2_service_error_notice (t t2 : Nat → ReqResult SearchPayload) (msg : String)
    (h : t 0 = .exn msg) (h2 : t2 0 = t 0) :
    get_place_suggestions t = ([], true) ∧ perform_request t2 = perform_request t := by
  constructor
  · simp [get_place_suggestions, perform_request, h, suggestionsOfResult]
  · simp [perform_request, h2]

/-- C2 (amended) witness at a concrete failing transport. -/
theorem c2_service_error_notice_witness :
    get_place_suggestions (fun _ => .exn "boom") = ([], true) :=
  (c2_service_error_notice (fun _ => .exn "boom") (fun _ => .exn "boom") "boom" rfl rfl).1

/-- Uniqueness invariant of the catalog: no two entries share the same
details name and details address. -/
def pairFree (places : List Entry) : Prop :=
  places.Pairwise
    (fun a b => ¬(a.details.name = b.details.name ∧ a.details.address = b.details.address))

/-- C3. The claim says a duplicate append is a no-op reported with a
user-visible notice. The code leaves the catalog unchanged but shows no
notice at all: the duplicate silently falls through (the second component is
the notice flag, and it is `false`). -/
theorem c3_counterexample :
    addPlace [{ original_input := "tower cafe", alternatives := [], selected := "id1",
                details := sampleDetails }] "tower cafe" [] "id2" sampleDetails =
      ([{ original_input := "tower cafe", alternatives := [], selected := "id1",
          details := sampleDetails }], false) := by
  rfl

/-- C3 (amended). Appending details whose (name, address) pair equals that of
an already-present entry is a silent no-op (catalog unchanged, no notice);
appending the same details twice from an empty catalog yields a catalog of
size 1 with the second call a silent no-op; and the append step preserves the
invariant that no two entries share a (name, address) pair. -/
theorem c3_append_dedupe (places : List Entry) (pn pn2 sel sel2 : String)
    (alts alts2 : List Suggestion) (d : Details) (hu : pairFree places) :
    (isDuplicate places d = true → addPlace places pn alts sel d = (places, false)) ∧
    pairFree (addPlace places pn alts sel d).1 ∧
    (addPlace ((addPlace places pn alts sel d).1) pn2 alts2 sel2 d).1 =
      (addPlace places pn alts sel d).1 ∧
    (addPlace ((addPlace places pn alts sel d).1) pn2 alts2 sel2 d).2 = false ∧
    (places = [] → (addPlace places pn alts sel d).1.length = 1) := by
  by_cases hdup : isDuplicate places d = true
  · have h1 : addPlace places pn alts sel d = (places, false) := by
      simp [addPlace, hdup]
    refine ⟨fun _ => h1, ?_, ?_, ?_, ?_⟩
    · rw [h1]
      exact hu
    · rw [h1]
      simp [addPlace, hdup]
    · rw [h1]
      simp [addPlace, hdup]
    · intro he
      subst he
      simp [isDuplicate] at hdup
  · have hdup2 : isDuplicate places d = false := by
      simpa using hdup
    have h1 : addPlace places pn alts sel d =
        (places ++ [{ original_input := pn, alternatives := alts, selected := sel,
                      details := d }], true) := by
      simp [addPlace, hdup2]
    have hmem : ∀ e ∈ places,
        ¬(e.details.name = d.name ∧ e.details.address = d.address) := by
      intro e he hcontra
      have htrue : isDuplicate places d = true := by
        simp only [isDuplicate, List.any_eq_true, Bool.and_eq_true, beq_iff_eq]
        exact ⟨e, he, hcontra⟩
      rw [htrue] at hdup2
      exact absurd hdup2 (by simp)
    have hdupNew : isDuplicate
        (places ++ [{ original_input := pn, alternatives := alts, selected := sel,
                      details := d }]) d = true := by
      simp [isDuplicate]
    refine ⟨fun hcon => absurd hcon (by simp [hdup2]), ?_, ?_, ?_, ?_⟩
    · rw [h1]
      unfold pairFree
      rw [List.pairwise_append]
      refine ⟨hu, List.pairwise_singleton _ _, ?_⟩
      intro a ha b hb
      have hb2 : b = { original_input := pn, alternatives := alts, selected := sel,
                       details := d } := by
        simpa using hb
      subst hb2
      exact hmem a ha
    · rw [h1]
      simp [addPlace, hdupNew]
    · rw [h1]
      simp [addPlace, hdupNew]
    · intro he
      subst he
      rw [h1]
      simp

/-- C3 (amended) witness: a double append of the same details from the empty
catalog ends at size 1, with the second call a silent no-op. -/
theorem c3_append_dedupe_witness :
    (addPlace [] "tower cafe" [] "id1" sampleDetails).1.length = 1 ∧
    (addPlace ((addPlace [] "tower cafe" [] "id1" sampleDetails).1) "again" [] "id2"
        sampleDetails).2 = false :=
  ⟨(c3_append_dedupe [] "tower cafe" "again" "id1" "id2" [] [] sampleDetails
      List.Pairwise.nil).2.2.2.2 rfl,
   (c3_append_dedupe [] "tower cafe" "again" "id1" "id2" [] [] sampleDetails
      List.Pairwise.nil).2.2.2.1⟩

/-- C4. For a details response whose `result` object is present,
`get_place_details` passes a present `rating` or `user_ratings_total`
through verbatim and maps an absent one to the `N/A` sentinel (never to any
numeric value, in particular never to zero); the two fields are handled
independently, each a function of its own source field only. -/
theorem c4_details_sentinel (place : PlaceData) :
    ∃ d, (get_place_details (fun _ => .ok { result := some place })).1 = some d ∧
      (∀ q : ℚ, place.rating = some q → d.rating = .val q) ∧
      (place.rating = none → d.rating = .na ∧ ∀ q : ℚ, d.rating ≠ .val q) ∧
      (∀ n : Nat, place.user_ratings_total = some n → d.total_ratings = .val n) ∧
      (place.user_ratings_total = none →
        d.total_ratings = .na ∧ ∀ n : Nat, d.total_ratings ≠ .val n) := by
  refine ⟨{ name := sentinel place.name, address := sentinel place.formatted_address,
            rating := sentinel place.rating,
            total_ratings := sentinel place.user_ratings_total },
    rfl, ?_, ?_, ?_, ?_⟩
  · intro q hq
    simp [sentinel, hq]
  · intro hq
    simp [sentinel, hq]
  · intro n hn
    simp [sentinel, hn]
  · intro hn
    simp [sentinel, hn]

/-- A sample details payload with `rating` absent and `user_ratings_total`
present with value zero. -/
def missingRatingData : PlaceData :=
  { name := some "Quiet Bar", formatted_address := some "2 Side Street",
    rating := none, user_ratings_total := some 0 }

/-- C4 witness: absent rating becomes the sentinel while a present zero
review count stays the value zero, in the same response. -/
theorem c4_details_sentinel_witness :
    ∃ d, (get_place_details (fun _ => .ok { result := some missingRatingData })).1 = some d ∧
      d.rating = .na ∧ d.total_ratings = .val 0 := by
  obtain ⟨d, hd, hp, hna, hv, hnt⟩ := c4_details_sentinel missingRatingData
  exact ⟨d, hd, (hna rfl).1, hv 0 rfl⟩

/-- C6. When both the primary search and the fallback return zero results,
`validate_address` yields the NotFound encoding: no confirmed address, an
empty suggestion list, and no error notice (so neither Confirmed nor the
exception encoding), which `main` reports as the invalid-address notice; in
the review app a zero-result search leaves the catalog unchanged and reports
the no-matches error. -/
theorem c6_notfound_both_empty (geo : ReqResult (List GeoResult))
    (auto : ReqResult (List AutoResult)) (searchT : Nat → ReqResult SearchPayload)
    (dT : String → Nat → ReqResult DetailsPayload) (places : List Entry) (pn : String)
    (hg : geo = .ok []) (ha : auto = .ok [])
    (hs : searchT 0 = .ok { results := some [] }) :
    validate_address geo auto = ((none, some []), false) ∧
    handleValidation (validate_address geo auto).1 = .invalid ∧
    submitPlace searchT dT places pn = (places, .noMatches) := by
  subst hg
  subst ha
  refine ⟨rfl, rfl, ?_⟩
  simp [submitPlace, find_place, get_place_suggestions, perform_request, hs,
    suggestionsOfResult]

/-- C6 witness at concrete empty responses. -/
theorem c6_notfound_both_empty_witness :
    validate_address (.ok []) (.ok []) = ((none, some []), false) ∧
    submitPlace (fun _ => .ok { results := some [] }) (fun _ _ => .ok { result := none })
      [] "nowhere" = ([], .noMatches) :=
  ⟨(c6_notfound_both_empty (.ok []) (.ok []) (fun _ => .ok { results := some [] })
      (fun _ _ => .ok { result := none }) [] "nowhere" rfl rfl rfl).1,
   (c6_notfound_both_empty (.ok []) (.ok []) (fun _ => .ok { results := some [] })
      (fun _ _ => .ok { result := none }) [] "nowhere" rfl rfl rfl).2.2⟩

/-- C5. When the provider search succeeds with at least one result, the
submit flow fetches details for the place id of the first (rank-1) provider
result, and (when the details fetch succeeds and the details are not a
duplicate) the entry appended to the catalog carries exactly those details
and that selected identifier. Moreover the details transport is consulted
only at the first result's identifier: two transports that agree there give
the same outcome. -/
theorem c5_submit_first_result (r0 : Place) (rest : List Place) (pn : String)
    (places : List Entry) (dT dT2 : String → Nat → ReqResult DetailsPayload) (d : Details)
    (hd : (get_place_details (dT r0.place_id)).1 = some d)
    (hdup : isDuplicate places d = false)
    (hsame : dT2 r0.place_id = dT r0.place_id) :
    (∃ e, submitPlace (fun _ => .ok { results := some (r0 :: rest) }) dT places pn =
        (places ++ [e], .added) ∧ e.selected = r0.place_id ∧ e.details = d) ∧
    submitPlace (fun _ => .ok { results := some (r0 :: rest) }) dT2 places pn =
      submitPlace (fun _ => .ok { results := some (r0 :: rest) }) dT places pn := by
  have hfp : (find_place (fun _ => ReqResult.ok { results := some (r0 :: rest) })).1 =
      mkSuggestion r0 :: (rest.map mkSuggestion).take 4 := rfl
  have h1 : submitPlace (fun _ => .ok { results := some (r0 :: rest) }) dT places pn =
      (places ++ [{ original_input := pn,
                    alternatives := mkSuggestion r0 :: (rest.map mkSuggestion).take 4,
                    selected := r0.place_id, details := d }], .added) := by
    simp [submitPlace, hfp, mkSuggestion, hd, addPlace, hdup]
  have h2 : submitPlace (fun _ => .ok { results := some (r0 :: rest) }) dT2 places pn =
      (places ++ [{ original_input := pn,
                    alternatives := mkSuggestion r0 :: (rest.map mkSuggestion).take 4,
                    selected := r0.place_id, details := d }], .added) := by
    simp [submitPlace, hfp, mkSuggestion, hsame, hd, addPlace, hdup]
  exact ⟨⟨_, h1, rfl, rfl⟩, h2.trans h1.symm⟩

/-- C5 witness: a concrete one-result search appends the entry whose selected
id is the first result's id with the details fetched for it. -/
theorem c5_submit_first_result_witness :
    ∃ e, submitPlace (fun _ => .ok { results := some [pl "eiffel"] })
        (fun _ _ => .ok { result := some missingRatingData }) [] "eiffel tower" =
      ([] ++ [e], .added) ∧ e.selected = (pl "eiffel").place_id ∧
      e.details = { name := .val "Quiet Bar", address := .val "2 Side Street",
                    rating := .na, total_ratings := .val 0 } :=
  (c5_submit_first_result (pl "eiffel") [] "eiffel tower" []
    (fun _ _ => .ok { result := some missingRatingData })
    (fun _ _ => .ok { result := some missingRatingData })
    { name := .val "Quiet Bar", address := .val "2 Side Street",
      rating := .na, total_ratings := .val 0 } rfl rfl rfl).1

/-- A first sample catalog entry. -/
def entA : Entry :=
  { original_input := "a", alternatives := [], selected := "ida", details := sampleDetails }

/-- A second sample catalog entry. -/
def entB : Entry :=
  { original_input := "b", alternatives := [], selected := "idb", details := sampleDetails }

/-- C7. Replacing the selected candidate of the entry at an in-bounds
position i updates only that entry's selected identifier and details: the
catalog keeps its length, every other position is unchanged, and the entry at
position i keeps its original input and alternatives. -/
theorem c7_replace_frame (places : List Entry) (i : Nat) (pid : String) (d : Details)
    (h : i < places.length) :
    (replaceSelection places i pid d).length = places.length ∧
    (∀ j, j ≠ i → (replaceSelection places i pid d)[j]? = places[j]?) ∧
    ∃ e, places[i]? = some e ∧
      (replaceSelection places i pid d)[i]? =
        some { original_input := e.original_input, alternatives := e.alternatives,
               selected := pid, details := d } := by
  induction places generalizing i with
  | nil => simp at h
  | cons e es ih =>
    cases i with
    | zero =>
      refine ⟨by simp [replaceSelection], ?_, ⟨e, by simp, by simp [replaceSelection]⟩⟩
      intro j hj
      cases j with
      | zero => exact absurd rfl hj
      | succ j => simp [replaceSelection]
    | succ i =>
      have h2 : i < es.length := by simpa using h
      obtain ⟨hl, hfr, e2, he2, hset⟩ := ih i h2
      refine ⟨by simp [replaceSelection, hl], ?_, ⟨e2, ?_, ?_⟩⟩
      · intro j hj
        cases j with
        | zero => simp [replaceSelection]
        | succ j =>
          have hne : j ≠ i := fun hc => hj (by rw [hc])
          simpa [replaceSelection] using hfr j hne
      · simpa using he2
      · simpa [replaceSelection] using hset

/-- C7 witness: replacing position 1 of a two-entry catalog keeps the length
and leaves position 0 untouched. -/
theorem c7_replace_frame_witness :
    (replaceSelection [entA, entB] 1 "newid" sampleDetails).length = 2 ∧
    (replaceSelection [entA, entB] 1 "newid" sampleDetails)[0]? = some entA := by
  refine ⟨(c7_replace_frame [entA, entB] 1 "newid" sampleDetails (by decide)).1, ?_⟩
  exact (c7_replace_frame [entA, entB] 1 "newid" sampleDetails (by decide)).2.1 0 (by decide)

/-- C8. Removing an in-bounds index i yields a catalog one shorter in which
positions below i are unchanged and every later position shifts down by one
(so the element formerly at i is gone positionally); an out-of-bounds index
fails with the IndexError kind. -/
theorem c8_removeAt (places : List Entry) (i : Nat) :
    (i < places.length → ∃ l, removeAt places i = .ok l ∧
      l.length = places.length - 1 ∧
      (∀ j, j < i → l[j]? = places[j]?) ∧
      (∀ j, i ≤ j → l[j]? = places[j + 1]?)) ∧
    (places.length ≤ i → removeAt places i = .error .indexOut) := by
  constructor
  · intro h
    exact ⟨places.eraseIdx i, by simp [removeAt, h], List.length_eraseIdx_of_lt h,
      fun j hj => eraseIdx_getElem_of_lt places i j hj,
      fun j hj => eraseIdx_getElem_of_ge places i j hj⟩
  · intro h
    have hnot : ¬ i < places.length := by omega
    simp [removeAt, hnot]

/-- C8 witness: removing index 0 of a two-entry catalog leaves the former
second entry at position 0, and index 5 is rejected. -/
theorem c8_removeAt_witness :
    (∃ l, removeAt [entA, entB] 0 = .ok l ∧ l.length = 1 ∧ l[0]? = some entB) ∧
    removeAt [entA, entB] 5 = .error .indexOut := by
  obtain ⟨l, hok, hlen, hlt, hge⟩ := (c8_removeAt [entA, entB] 0).1 (by decide)
  exact ⟨⟨l, hok, hlen, hge 0 (by decide)⟩, (c8_removeAt [entA, entB] 5).2 (by decide)⟩

/-- C9. The results table is rendered only when the catalog holds more than
one entry: with exactly one entry (or none) nothing is rendered, and with at
least two entries the generated table is shown. -/
theorem c9_table_gate (places : List Entry) :
    (places.length ≤ 1 → renderResults places = none) ∧
    (1 < places.length → renderResults places = some (generate_table places) ∧
      ∃ t, generate_table places = .table t) := by
  constructor
  · intro h
    have hnot : ¬ places.length > 1 := by omega
    simp [renderResults, hnot]
  · intro h
    refine ⟨by simp [renderResults, h], ?_⟩
    cases places with
    | nil => simp at h
    | cons e es => exact ⟨_, rfl⟩

/-- C9 witness: a single-entry catalog renders no table, a two-entry catalog
renders the generated table. -/
theorem c9_table_gate_witness :
    renderResults [entA] = none ∧
    renderResults [entA, entB] = some (generate_table [entA, entB]) :=
  ⟨(c9_table_gate [entA]).1 (by decide), ((c9_table_gate [entA, entB]).2 (by decide)).1⟩

/-- C10. Whenever `get_driving_time` yields a duration that rounds to 0
minutes, the `if outbound_duration:` check of `main` treats the result
exactly like an absent result: the leg is reported as could-not-calculate,
never as a 0-minute drive time. -/
theorem c10_zero_minutes (resp : ReqResult (List Route))
    (h : (get_driving_time resp).1 = some 0) :
    reportOutbound (get_driving_time resp).1 = .couldNotCalculate ∧
    reportOutbound none = .couldNotCalculate := by
  rw [h]
  exact ⟨rfl, rfl⟩

/-- C10 witness: a 20-second leg rounds to 0 minutes and is reported as
could-not-calculate. -/
theorem c10_zero_minutes_witness :
    reportOutbound
        (get_driving_time (.ok [{ legs := [{ duration_in_traffic := 20 }] }])).1 =
      LegReport.couldNotCalculate :=
  (c10_zero_minutes (.ok [{ legs := [{ duration_in_traffic := 20 }] }]) rfl).1

end DriveTime
